import Mathlib

/-!
Verification of the ring-topology coordination protocol in
`scripts/data-parallelism/agn.py` (Accumulated Gradient Normalization
boilerplate).

Shallow embedding conventions:
* Python integers are `Int`; Python `%` on a positive divisor agrees with
  Lean's `Int.emod` (both return a result in `[0, divisor)`), so `%` on
  `Int` models the Python modulus used for neighbor computation.
* The network behaviour of a process is modelled as the trace (a `List`)
  of `send_model` / `receive_model` calls it performs, in order.
* Python `range(0, n)` over an `Int` bound iterates `n.toNat` times
  (empty for `n ≤ 0`), which `List.range (·.toNat)` reproduces.
-/

/-- One network operation performed by a process: a `send_model` to a
destination rank or a `receive_model` from a source rank. -/
inductive NetOp where
  | send (dst : Int)
  | recv (src : Int)
deriving DecidableEq, Repr

/-- `next_rank = (rank + 1) % world_size` — the inline neighbor expression
at lines 85 and 103 of `agn.py`. -/
def next_rank (rank world_size : Int) : Int :=
  (rank + 1) % world_size

/-- `previous_rank = (rank - 1) % world_size` — the inline neighbor
expression at lines 86 and 104 of `agn.py` (Python `%`, hence `Int.emod`). -/
def previous_rank (rank world_size : Int) : Int :=
  (rank - 1) % world_size

/-- Network trace of `optimize_master` (agn.py lines 79-94): one
unconditional `send_model` to the next rank, then
`for i in range(0, num_iterations - 1)` of receive-then-send, then one
final `receive_model` from the previous rank. -/
def optimize_master (rank world_size num_iterations : Int) : List NetOp :=
  [NetOp.send (next_rank rank world_size)]
    ++ (List.range (num_iterations - 1).toNat).flatMap
        (fun _ => [NetOp.recv (previous_rank rank world_size),
                   NetOp.send (next_rank rank world_size)])
    ++ [NetOp.recv (previous_rank rank world_size)]

/-- Network trace of `optimize` (agn.py lines 97-108): exactly
`for i in range(0, num_iterations)` of receive-then-send, nothing else. -/
def optimize (rank world_size num_iterations : Int) : List NetOp :=
  (List.range num_iterations.toNat).flatMap
    (fun _ => [NetOp.recv (previous_rank rank world_size),
               NetOp.send (next_rank rank world_size)])

/-- Whether a network operation is a send. -/
def is_send : NetOp → Bool
  | NetOp.send _ => true
  | NetOp.recv _ => false

/-- Whether a network operation is a receive. -/
def is_recv : NetOp → Bool
  | NetOp.send _ => false
  | NetOp.recv _ => true

/-- Number of `send_model` calls in a trace. -/
def num_sends (t : List NetOp) : Nat :=
  t.countP is_send

/-- Number of `receive_model` calls in a trace. -/
def num_recvs (t : List NetOp) : Nat :=
  t.countP is_recv

/-- Modelled from the spec (§4.3): the Master state machine
`Seed → Cycle^(n-1) → Drain`, written with `List.replicate` so it can be
compared against the trace the code produces. -/
def specMasterTrace (prev nxt : Int) (n : Nat) : List NetOp :=
  NetOp.send nxt ::
    (List.flatten (List.replicate (n - 1) [NetOp.recv prev, NetOp.send nxt])
      ++ [NetOp.recv prev])

/-- Modelled from the spec (§4.4): the Worker state machine `Cycle^n`. -/
def specWorkerTrace (prev nxt : Int) (n : Nat) : List NetOp :=
  List.flatten (List.replicate n [NetOp.recv prev, NetOp.send nxt])

/-- Modelled from the spec (§3): `next(rank) = (rank + 1) mod world_size`. -/
def spec_next_rank (rank world_size : Int) : Int :=
  (rank + 1) % world_size

/-- Modelled from the spec (§3):
`previous(rank) = (rank - 1 + world_size) mod world_size`. -/
def spec_previous_rank (rank world_size : Int) : Int :=
  (rank - 1 + world_size) % world_size

/-- `is_master` (agn.py lines 74-76): the master rank is rank 0. -/
def is_master (rank : Int) : Bool :=
  rank == 0

/-- The role a process ends up running. -/
inductive Role where
  | master
  | worker
deriving DecidableEq, Repr

/-- The role dispatch of `main` (agn.py lines 37-42): `optimize_master`
when `is_master rank`, else `optimize`. -/
def main_role (rank : Int) : Role :=
  if is_master rank then Role.master else Role.worker

/-- A value stored in the settings mapping: Python `None`, a raw string
taken from `sys.argv`, or an `int` (an int default, or the result of a
successful conversion). -/
inductive ArgVal where
  | none
  | str (s : String)
  | int (n : Int)
deriving DecidableEq, Repr

/-- The settings mapping of `parse_arguments`, as an association list.
An update prepends a binding, which shadows older bindings under
`List.lookup` exactly as a Python `dict` assignment replaces a value. -/
abbrev Settings := List (String × ArgVal)

/-- The value `store_argument_key` (agn.py lines 171-178) stores: the
`sys.argv` entry following the first occurrence of `key`, when `key`
occurs and is not the last entry; otherwise the default. -/
def stored_value (argv : List String) (key : String) (default : ArgVal) :
    ArgVal :=
  match argv.findIdx? (fun a => a == key) with
  | Option.some i =>
      if i + 1 < argv.length then ArgVal.str (argv.getD (i + 1) "")
      else default
  | Option.none => default

/-- `store_argument_key` (agn.py lines 171-178). -/
def store_argument_key (argv : List String) (settings : Settings)
    (key store_in : String) (default : ArgVal) : Settings :=
  (store_in, stored_value argv key default) :: settings

/-- Decimal digit accumulator for `py_int_of_string`: consumes the
remaining characters, failing on the first non-digit. -/
def parse_digits : List Char → Nat → Option Nat
  | [], acc => Option.some acc
  | c :: cs, acc =>
      if c.isDigit then parse_digits cs (acc * 10 + (c.toNat - 48))
      else Option.none

/-- Python `int(s)` on a string: an optionally signed decimal numeral
succeeds, anything else raises `ValueError` (modelled as `Option.none`).
The whitespace-stripping and underscore-separator tolerance of CPython's
`int` are not modelled; no argument exercised here uses them. -/
def py_int_of_string (s : String) : Option Int :=
  match s.data with
  | [] => Option.none
  | '-' :: [] => Option.none
  | '-' :: cs => (parse_digits cs 0).map (fun n => -(n : Int))
  | '+' :: [] => Option.none
  | '+' :: cs => (parse_digits cs 0).map (fun n => (n : Int))
  | cs => (parse_digits cs 0).map (fun n => (n : Int))

/-- Python `int(x)` applied to a settings value, as `validate_argument_key`
uses it: an `int` passes through, a string is parsed as a signed decimal
numeral, and `None` fails (Python raises `TypeError`), as does a
non-numeric string (`ValueError`). -/
def py_int : ArgVal → Option Int
  | ArgVal.none => Option.none
  | ArgVal.str s => py_int_of_string s
  | ArgVal.int n => Option.some n

/-- `validate_argument_key` (agn.py lines 181-195): look the key up,
convert to `int` when requested (a conversion failure is caught and makes
the key invalid), and return the updated settings with the validity flag.
The `float` branch of the source is dead code (no call passes `'float'`)
and is not modelled; any other type tag does no conversion and is valid. -/
def validate_argument_key (settings : Settings) (key ty : String) :
    Settings × Bool :=
  match settings.lookup key with
  | Option.some v =>
      if ty == "int" then
        match py_int v with
        | Option.some m => ((key, ArgVal.int m) :: settings, true)
        | Option.none => (settings, false)
      else (settings, true)
  | Option.none => (settings, false)

/-- The eight `store_argument_key` calls of `parse_arguments`
(agn.py lines 148-155), in source order. -/
def parse_stores (argv : List String) : Settings :=
  store_argument_key argv
    (store_argument_key argv
      (store_argument_key argv
        (store_argument_key argv
          (store_argument_key argv
            (store_argument_key argv
              (store_argument_key argv
                (store_argument_key argv [] "--rank" "rank" ArgVal.none)
                "--world-size" "world_size" ArgVal.none)
              "--annouce-port" "announce_port" (ArgVal.int 5001))
            "--communication-frequency" "communication_frequency"
            (ArgVal.int 15))
          "--backend" "backend" (ArgVal.str "tcp"))
        "--master" "master" (ArgVal.str "127.0.0.1"))
      "--master-port" "master_port" (ArgVal.int 5000))
    "--iterations" "num_iterations" (ArgVal.int 1000)

/-- `parse_arguments` (agn.py lines 143-168): the eight stores, then the
eight validations in source order, with `valid` accumulated by `&=`
(left-associated conjunction, every validation evaluated). Returns the
final settings together with the `valid` flag (stored in the dict under
`'valid'` in the source). -/
def parse_arguments (argv : List String) : Settings × Bool :=
  let s := parse_stores argv
  let r1 := validate_argument_key s "rank" "int"
  let r2 := validate_argument_key r1.1 "world_size" "int"
  let r3 := validate_argument_key r2.1 "announce_port" "int"
  let r4 := validate_argument_key r3.1 "communication_frequency" "int"
  let r5 := validate_argument_key r4.1 "backend" "string"
  let r6 := validate_argument_key r5.1 "master" "string"
  let r7 := validate_argument_key r6.1 "master_port" "int"
  let r8 := validate_argument_key r7.1 "num_iterations" "int"
  (r8.1,
    ((((((r1.2 && r2.2) && r3.2) && r4.2) && r5.2) && r6.2) && r7.2) && r8.2)

/-- What `main` (agn.py lines 20-45) does after parsing: when the settings
are valid it initializes the distributed process group and dispatches on
the role; otherwise it only prints the usage message. -/
inductive MainAction where
  | initAndOptimize
  | usage
deriving DecidableEq, Repr

/-- The top-level branch of `main` (agn.py lines 25 and 43-45). -/
def main_action (argv : List String) : MainAction :=
  if (parse_arguments argv).2 then MainAction.initAndOptimize
  else MainAction.usage

/-- Recursion underlying `set_parameterization`: walk the model slots,
reading `parameters[i]` for the current slot and passing the updated index
`i + i` to the rest. `Option.none` models Python raising `IndexError`. -/
def set_param_go (parameters : List Int) : List Int → Nat → Option (List Int)
  | [], _ => Option.some []
  | _ :: ps, i =>
      match parameters[i]? with
      | Option.some v =>
          match set_param_go parameters ps (i + i) with
          | Option.some rest => Option.some (v :: rest)
          | Option.none => Option.none
      | Option.none => Option.none

/-- `set_parameterization` (agn.py lines 135-140): `i = 0`, then for each
model parameter slot `p`, `p.data.copy_(parameters[i])` followed by
`i += i`. The model is abstracted to its list of parameter slots; the
result is the new slot contents (in-place `copy_` made functional). -/
def set_parameterization (model parameters : List Int) : Option (List Int) :=
  set_param_go parameters model 0

/-- A constant-body loop over `range k` is `k` stacked copies of the body. -/
lemma range_bind_const {α : Type} (l : List α) (k : Nat) :
    (List.range k).flatMap (fun _ => l) = List.flatten (List.replicate k l) := by
  induction k with
  | zero => rfl
  | succ k ih =>
      rw [List.range_succ, List.replicate_succ']
      simp [List.flatMap_append, ih]

lemma countP_join_replicate (p : NetOp → Bool) (l : List NetOp) (k : Nat) :
    (List.flatten (List.replicate k l)).countP p = k * l.countP p := by
  induction k with
  | zero => simp
  | succ k ih =>
      rw [List.replicate_succ]
      simp [List.countP_append, ih, Nat.succ_mul]
      ring

example : optimize_master 0 3 2 =
    [NetOp.send 1, NetOp.recv 2, NetOp.send 1, NetOp.recv 2] := by decide

example : optimize 1 3 2 =
    [NetOp.recv 0, NetOp.send 2, NetOp.recv 0, NetOp.send 2] := by decide

example : optimize_master 0 3 1 = [NetOp.send 1, NetOp.recv 2] := by decide

example : optimize 1 3 0 = [] := by decide

lemma worker_trace_eq (rank world_size n : Int) :
    optimize rank world_size n =
      specWorkerTrace (previous_rank rank world_size)
        (next_rank rank world_size) n.toNat := by
  unfold optimize specWorkerTrace
  rw [range_bind_const]

lemma master_trace_eq (rank world_size n : Int) :
    optimize_master rank world_size n =
      specMasterTrace (previous_rank rank world_size)
        (next_rank rank world_size) n.toNat := by
  unfold optimize_master specMasterTrace
  rw [range_bind_const, Int.pred_toNat]
  simp

/-- C1: for every run with `num_iterations = N ≥ 1`, the Master loop
(`optimize_master`, executed at rank 0) and the Worker loop (`optimize`,
any rank) each perform exactly `N` `send_model` calls and exactly `N`
`receive_model` calls. -/
theorem C1_lap_count (rank world_size n : Int) (h : 1 ≤ n) :
    num_sends (optimize_master 0 world_size n) = n.toNat ∧
    num_recvs (optimize_master 0 world_size n) = n.toNat ∧
    num_sends (optimize rank world_size n) = n.toNat ∧
    num_recvs (optimize rank world_size n) = n.toNat := by
  have hn : 1 ≤ n.toNat := by omega
  rw [master_trace_eq, worker_trace_eq]
  unfold num_sends num_recvs specMasterTrace specWorkerTrace
  simp [List.countP_cons, List.countP_append, countP_join_replicate,
    is_send, is_recv]
  omega

/-- C1 witness: concrete run with `world_size = 3`, `num_iterations = 2`. -/
theorem C1_lap_count_witness :
    (1 : Int) ≤ 2 ∧
      (num_sends (optimize_master 0 3 2) = (2 : Int).toNat ∧
       num_recvs (optimize_master 0 3 2) = (2 : Int).toNat ∧
       num_sends (optimize 1 3 2) = (2 : Int).toNat ∧
       num_recvs (optimize 1 3 2) = (2 : Int).toNat) :=
  ⟨by decide, C1_lap_count 1 3 2 (by decide)⟩

/-- C2: for `num_iterations = N ≥ 1` the Master loop is exactly
Seed (one send to `next(0)`), then `N - 1` repetitions of
receive-from-`previous(0)`-then-send-to-`next(0)`, then the Drain receive
from `previous(0)` as the last operation (so nothing follows it). -/
theorem C2_master_seed_cycle_drain (world_size n : Int) (h : 1 ≤ n) :
    optimize_master 0 world_size n =
      specMasterTrace (previous_rank 0 world_size)
        (next_rank 0 world_size) n.toNat :=
  master_trace_eq 0 world_size n

/-- C2 witness: `world_size = 3`, `num_iterations = 2`. -/
theorem C2_master_seed_cycle_drain_witness :
    (1 : Int) ≤ 2 ∧
      optimize_master 0 3 2 =
        specMasterTrace (previous_rank 0 3) (next_rank 0 3) (2 : Int).toNat :=
  ⟨by decide, C2_master_seed_cycle_drain 3 2 (by decide)⟩

/-- C3: for every `num_iterations = N ≥ 0` the Worker loop is exactly `N`
repetitions of receive-from-`previous(rank)`-then-send-to-`next(rank)` and
nothing else: no Seed send, no Drain receive. -/
theorem C3_worker_cycles_only (rank world_size n : Int) (h : 0 ≤ n) :
    optimize rank world_size n =
      specWorkerTrace (previous_rank rank world_size)
        (next_rank rank world_size) n.toNat :=
  worker_trace_eq rank world_size n

/-- C3 witness: rank 1, `world_size = 3`, `num_iterations = 2`. -/
theorem C3_worker_cycles_only_witness :
    (0 : Int) ≤ 2 ∧
      optimize 1 3 2 =
        specWorkerTrace (previous_rank 1 3) (next_rank 1 3) (2 : Int).toNat :=
  ⟨by decide, C3_worker_cycles_only 1 3 2 (by decide)⟩

lemma next_rank_iterate (world_size r : Int) (hw : 1 ≤ world_size)
    (hr0 : 0 ≤ r) (hr : r < world_size) (k : Nat) :
    (fun x => next_rank x world_size)^[k] r = (r + k) % world_size := by
  induction k with
  | zero =>
      simp [Int.emod_eq_of_lt hr0 hr]
  | succ k ih =>
      rw [Function.iterate_succ_apply', ih]
      unfold next_rank
      rw [Int.emod_add_emod]
      push_cast
      ring_nf

/-- C4: ring closure — for `world_size ≥ 1` and any valid rank `r`,
`next (previous r) = r`, `previous (next r) = r`, and iterating `next`
exactly `world_size` times from `r` returns to `r`. -/
theorem C4_ring_closure (world_size r : Int) (hw : 1 ≤ world_size)
    (hr0 : 0 ≤ r) (hr : r < world_size) :
    next_rank (previous_rank r world_size) world_size = r ∧
    previous_rank (next_rank r world_size) world_size = r ∧
    (fun x => next_rank x world_size)^[world_size.toNat] r = r := by
  refine ⟨?_, ?_, ?_⟩
  · unfold next_rank previous_rank
    rw [Int.emod_add_emod]
    simpa using Int.emod_eq_of_lt hr0 hr
  · unfold next_rank previous_rank
    rw [sub_eq_add_neg, Int.emod_add_emod]
    have : r + 1 + -1 = r := by ring
    rw [this]
    exact Int.emod_eq_of_lt hr0 hr
  · rw [next_rank_iterate world_size r hw hr0 hr]
    rw [Int.toNat_of_nonneg (by omega)]
    simpa using Int.emod_eq_of_lt hr0 hr

/-- C4 witness: `world_size = 3`, rank 1. -/
theorem C4_ring_closure_witness :
    ((1 : Int) ≤ 3 ∧ (0 : Int) ≤ 1 ∧ (1 : Int) < 3) ∧
      (next_rank (previous_rank 1 3) 3 = 1 ∧
       previous_rank (next_rank 1 3) 3 = 1 ∧
       (fun x => next_rank x 3)^[(3 : Int).toNat] 1 = 1) :=
  ⟨by decide, C4_ring_closure 3 1 (by decide) (by decide) (by decide)⟩

/-- C5: for `num_iterations ≥ 1` the Master's first network operation is a
send and its last is a receive; a Worker's first network operation is a
receive and its last is a send. -/
theorem C5_first_last_ops (rank world_size n : Int) (h : 1 ≤ n) :
    (optimize_master 0 world_size n).head?.map is_send = some true ∧
    (optimize_master 0 world_size n).getLast?.map is_recv = some true ∧
    (optimize rank world_size n).head?.map is_recv = some true ∧
    (optimize rank world_size n).getLast?.map is_send = some true := by
  obtain ⟨k, hk⟩ : ∃ k, n.toNat = k + 1 := ⟨n.toNat - 1, by omega⟩
  rw [master_trace_eq, worker_trace_eq, hk]
  unfold specMasterTrace specWorkerTrace
  refine ⟨by simp [is_send], ?_, ?_, ?_⟩
  · rw [← List.cons_append, List.getLast?_concat]
    simp [is_recv]
  · rw [List.replicate_succ, List.flatten_cons]
    simp [is_recv]
  · rw [List.replicate_succ', List.flatten_append]
    have : List.flatten [[NetOp.recv (previous_rank rank world_size),
        NetOp.send (next_rank rank world_size)]] =
        [NetOp.recv (previous_rank rank world_size)] ++
          [NetOp.send (next_rank rank world_size)] := by simp
    rw [this, ← List.append_assoc, List.getLast?_concat]
    simp [is_send]

/-- C5 witness: rank 1, `world_size = 3`, `num_iterations = 2`. -/
theorem C5_first_last_ops_witness :
    (1 : Int) ≤ 2 ∧
      ((optimize_master 0 3 2).head?.map is_send = some true ∧
       (optimize_master 0 3 2).getLast?.map is_recv = some true ∧
       (optimize 1 3 2).head?.map is_recv = some true ∧
       (optimize 1 3 2).getLast?.map is_send = some true) :=
  ⟨by decide, C5_first_last_ops 1 3 2 (by decide)⟩

/-- C6: a process runs the Master loop iff its rank is 0, and otherwise
the Worker loop; the role is a pure function of the rank alone. -/
theorem C6_role_is_rank_zero (rank : Int) :
    (main_role rank = Role.master ↔ rank = 0) ∧
    (main_role rank = Role.worker ↔ rank ≠ 0) := by
  by_cases h : rank = 0 <;> simp [main_role, is_master, h]

lemma rank_lookup_parse_stores (argv : List String) :
    (parse_stores argv).lookup "rank" =
      Option.some (stored_value argv "--rank" ArgVal.none) := rfl

lemma parse_invalid_of_bad_rank (argv : List String)
    (h : py_int (stored_value argv "--rank" ArgVal.none) = Option.none) :
    (parse_arguments argv).2 = false := by
  have h1 : (validate_argument_key (parse_stores argv) "rank" "int").2 =
      false := by
    unfold validate_argument_key
    rw [rank_lookup_parse_stores]
    simp [h]
  simp [parse_arguments, h1]

/-- C7: when `--rank` is absent from the arguments, or the string value
following it fails integer conversion, the parsed settings are invalid
and `main` only prints the usage message — the process-group
initialization and role dispatch are never reached. -/
theorem C7_invalid_rank_rejected (argv : List String)
    (h : ¬ "--rank" ∈ argv ∨
      ∃ s, stored_value argv "--rank" ArgVal.none = ArgVal.str s ∧
        py_int_of_string s = Option.none) :
    (parse_arguments argv).2 = false ∧
      main_action argv = MainAction.usage := by
  have hp : py_int (stored_value argv "--rank" ArgVal.none) =
      Option.none := by
    rcases h with h | ⟨s, hs, hn⟩
    · have hf : argv.findIdx? (fun a => a == "--rank") = Option.none := by
        rw [List.findIdx?_eq_none_iff]
        intro x hx
        simp only [beq_eq_false_iff_ne]
        intro he
        exact h (he ▸ hx)
      unfold stored_value
      rw [hf]
      rfl
    · rw [hs]
      simpa [py_int] using hn
  have hv := parse_invalid_of_bad_rank argv hp
  refine ⟨hv, ?_⟩
  unfold main_action
  rw [hv]
  rfl

/-- C7 witness: the arguments `--rank abc`. -/
theorem C7_invalid_rank_rejected_witness :
    (¬ "--rank" ∈ (["--rank", "abc"] : List String) ∨
      ∃ s, stored_value ["--rank", "abc"] "--rank" ArgVal.none =
          ArgVal.str s ∧ py_int_of_string s = Option.none) ∧
      ((parse_arguments ["--rank", "abc"]).2 = false ∧
        main_action ["--rank", "abc"] = MainAction.usage) :=
  ⟨Or.inr ⟨"abc", by decide, by decide⟩,
    C7_invalid_rank_rejected ["--rank", "abc"]
      (Or.inr ⟨"abc", by decide, by decide⟩)⟩

/-- C8: for ranks in range the code's neighbor expressions agree with the
spec's formulas (`(rank - 1) % world_size = (rank - 1 + world_size) mod
world_size` under Python `%`), both results are valid ranks, and for
`world_size = 1` the process is its own neighbor. -/
theorem C8_topology_refines_spec (world_size r : Int) (hw : 1 ≤ world_size)
    (hr0 : 0 ≤ r) (hr : r < world_size) :
    next_rank r world_size = spec_next_rank r world_size ∧
    previous_rank r world_size = spec_previous_rank r world_size ∧
    0 ≤ next_rank r world_size ∧ next_rank r world_size < world_size ∧
    0 ≤ previous_rank r world_size ∧
    previous_rank r world_size < world_size ∧
    next_rank 0 1 = 0 ∧ previous_rank 0 1 = 0 := by
  have hne : world_size ≠ 0 := by omega
  have hpos : 0 < world_size := by omega
  refine ⟨rfl, ?_, Int.emod_nonneg _ hne, Int.emod_lt_of_pos _ hpos,
    Int.emod_nonneg _ hne, Int.emod_lt_of_pos _ hpos, by decide, by decide⟩
  unfold previous_rank spec_previous_rank
  have hmod : (r - 1 + world_size) % world_size =
      (r - 1) % world_size := by simp
  rw [hmod]

/-- C8 witness: `world_size = 3`, rank 1. -/
theorem C8_topology_refines_spec_witness :
    ((1 : Int) ≤ 3 ∧ (0 : Int) ≤ 1 ∧ (1 : Int) < 3) ∧
      (next_rank 1 3 = spec_next_rank 1 3 ∧
       previous_rank 1 3 = spec_previous_rank 1 3 ∧
       0 ≤ next_rank 1 3 ∧ next_rank 1 3 < 3 ∧
       0 ≤ previous_rank 1 3 ∧ previous_rank 1 3 < 3 ∧
       next_rank 0 1 = 0 ∧ previous_rank 0 1 = 0) :=
  ⟨by decide, C8_topology_refines_spec 3 1 (by decide) (by decide)
    (by decide)⟩

lemma set_param_go_zero (parameters : List Int) (p0 : Int)
    (h0 : parameters[0]? = Option.some p0) (model : List Int) :
    set_param_go parameters model 0 =
      Option.some (List.replicate model.length p0) := by
  induction model with
  | nil => rfl
  | cons p ps ih =>
      unfold set_param_go
      rw [h0]
      simp [ih, List.replicate_succ]

/-- C9: because its index update is `i += i`, `set_parameterization`
never advances past index 0 and copies `parameters[0]` into every slot of
the model, so no later slot receives its own element of the input list. -/
theorem C9_set_parameterization_repeats_first (model parameters : List Int)
    (p0 : Int) (hm : 1 ≤ model.length)
    (h0 : parameters[0]? = Option.some p0) :
    set_parameterization model parameters =
      Option.some (List.replicate model.length p0) :=
  set_param_go_zero parameters p0 h0 model

/-- C9 witness: a 3-slot model with distinct parameters `[1, 2, 3]` ends
up all-1. -/
theorem C9_set_parameterization_repeats_first_witness :
    (1 ≤ ([5, 6, 7] : List Int).length ∧
      ([1, 2, 3] : List Int)[0]? = Option.some 1) ∧
      set_parameterization [5, 6, 7] [1, 2, 3] =
        Option.some (List.replicate ([5, 6, 7] : List Int).length 1) :=
  ⟨⟨by decide, by decide⟩,
    C9_set_parameterization_repeats_first [5, 6, 7] [1, 2, 3] 1
      (by decide) (by decide)⟩

/-- C10: `num_iterations = 0` passes validation (it is not a
configuration error), the Master still performs exactly one send followed
by one receive, every Worker performs no network operation at all, and so
the Master/Worker send-count symmetry fails. -/
theorem C10_zero_iterations_asymmetry (rank world_size : Int) :
    (parse_arguments
      ["--rank", "0", "--world-size", "2", "--iterations", "0"]).2 =
        true ∧
    (parse_arguments
      ["--rank", "0", "--world-size", "2", "--iterations", "0"]).1.lookup
        "num_iterations" = Option.some (ArgVal.int 0) ∧
    optimize_master 0 world_size 0 =
      [NetOp.send (next_rank 0 world_size),
       NetOp.recv (previous_rank 0 world_size)] ∧
    optimize rank world_size 0 = [] ∧
    num_sends (optimize_master 0 world_size 0) = 1 ∧
    num_recvs (optimize_master 0 world_size 0) = 1 ∧
    num_sends (optimize rank world_size 0) = 0 ∧
    num_recvs (optimize rank world_size 0) = 0 ∧
    num_sends (optimize_master 0 world_size 0) ≠
      num_sends (optimize rank world_size 0) := by
  refine ⟨by decide, by decide, rfl, rfl, rfl, rfl, rfl, rfl, ?_⟩
  intro hcon
  have h1 : num_sends (optimize_master 0 world_size 0) = 1 := rfl
  have h2 : num_sends (optimize rank world_size 0) = 0 := rfl
  rw [h1, h2] at hcon
  exact Nat.one_ne_zero hcon
